import Mathlib

/-!
Shallow embedding of the `itk::KernelTransform2<TScalarType, NDimensions>`
class from `src/Components/Transforms/SplineKernelTransform/itkKernelTransform2.h`
(elastix).  Scalars (`TScalarType`, instantiated with `float`/`double` in the
original) are modelled as exact rationals `ℚ`; the template parameter
`NDimensions` is the natural number `D`.  The pluggable kernel (`ComputeG`,
overridden by the concrete spline families, which are out of scope) is a
function parameter `G`.  Method bodies that are written inline in the header
(`GetNumberOfParameters`, `SetStiffness`, `SetAlpha`, `GetAlpha`) are
translated directly from that code; method bodies that live in the companion
`itkKernelTransform2.txx` file, which is not among the sources, are modelled
from the specification, as indicated by their doc comments.
-/

namespace itk

/-- A `D`-dimensional point or vector (`InputPointType` / `InputVectorType`). -/
abbrev Pt (D : ℕ) := Fin D → ℚ

/-- A `D × D` kernel response matrix (`GMatrixType`). -/
abbrev GMat (D : ℕ) := Matrix (Fin D) (Fin D) ℚ

/-- The observable state of a `KernelTransform2` object: the landmark stores,
the stiffness, the reorganized solution (`m_AMatrix`, `m_BVector`,
`m_DMatrix`, the latter kept as one spline coefficient vector per landmark),
and the three validity flags.  Cached intermediate matrices (`m_KMatrix`,
`m_LMatrix`, ...) are recomputed by the functions below instead of being
stored. -/
structure KernelTransform2 (D : ℕ) where
  m_SourceLandmarks : List (Pt D)
  m_TargetLandmarks : List (Pt D)
  m_Stiffness : ℚ
  m_AMatrix : GMat D
  m_BVector : Pt D
  m_DMatrix : List (Pt D)
  m_WMatrixComputed : Bool
  m_LMatrixComputed : Bool
  m_LInverseComputed : Bool

variable {D : ℕ}

/-- `GetNumberOfParameters` (header, lines 152-155): returns
`m_SourceLandmarks->GetNumberOfPoints() * SpaceDimension`. -/
def GetNumberOfParameters (st : KernelTransform2 D) : ℕ :=
  st.m_SourceLandmarks.length * D

/-- `SetStiffness` (header, lines 226-231): stores
`(stiffness > 0) ? stiffness : 0.0` and sets all three validity flags to
`false`. -/
def SetStiffness (st : KernelTransform2 D) (stiffness : ℚ) : KernelTransform2 D :=
  { st with
    m_Stiffness := if stiffness > 0 then stiffness else 0
    m_LMatrixComputed := false
    m_LInverseComputed := false
    m_WMatrixComputed := false }

/-- `GetStiffness` (header, line 234, `itkGetMacro`). -/
def GetStiffness (st : KernelTransform2 D) : ℚ :=
  st.m_Stiffness

/-- `SetAlpha` (header, line 241): the base-class body is empty, `{}`. -/
def SetAlpha (st : KernelTransform2 D) (_Alpha : ℚ) : KernelTransform2 D :=
  st

/-- `GetAlpha` (header, lines 242-246): returns the dummy value `-1.0`. -/
def GetAlpha (_st : KernelTransform2 D) : ℚ :=
  -1

/-- Modelled from the spec: the body of `ComputeReflexiveG` (declared at header
lines 320-328) is in `itkKernelTransform2.txx`, which is not among the
sources.  Per the spec and the header's doc comment, the default reflexive
kernel response is "a diagonal matrix where the diagonal elements are the
stiffness of the spline"; the landmark index (the `PointsIterator` argument)
is not used by the default implementation. -/
def ComputeReflexiveG (st : KernelTransform2 D) (_i : ℕ) : GMat D :=
  Matrix.diagonal fun _ => st.m_Stiffness

/-- Row/column index of a block entry of the kernel matrix K:
(landmark index, axis). -/
abbrev KIdx (N D : ℕ) := Fin N × Fin D

/-- Index of an affine row/column of L: `D·D` rotational/shear entries plus
`D` translation entries. -/
abbrev AffIdx (D : ℕ) := (Fin D × Fin D) ⊕ Fin D

/-- Index of a row/column of the composite system matrix L. -/
abbrev LIdx (N D : ℕ) := KIdx N D ⊕ AffIdx D

/-- Modelled from the spec (the body of `ComputeK` is in the `.txx`): block
(i, j) with i ≠ j is the kernel response to the displacement between the
landmark coordinates (the spec records that the source uses the *target*
landmark coordinates here); block (i, i) is the reflexive response. -/
def ComputeK (G : Pt D → GMat D) (st : KernelTransform2 D) :
    Matrix (KIdx st.m_SourceLandmarks.length D) (KIdx st.m_SourceLandmarks.length D) ℚ :=
  Matrix.of fun rc cc =>
    if rc.1 = cc.1 then ComputeReflexiveG st rc.1.val rc.2 cc.2
    else
      G (st.m_TargetLandmarks.getD rc.1.val 0 - st.m_TargetLandmarks.getD cc.1.val 0)
        rc.2 cc.2

/-- Modelled from the spec (the body of `ComputeP` is in the `.txx`): the
block row of landmark i is `[p_i(0)·I | ... | p_i(D-1)·I | I]` — per spatial
axis the landmark's coordinate times an identity block, then a trailing
identity block for the translation term. -/
def ComputeP (st : KernelTransform2 D) :
    Matrix (KIdx st.m_SourceLandmarks.length D) (AffIdx D) ℚ :=
  Matrix.of fun rc cc =>
    match cc with
    | Sum.inl ca => if rc.2 = ca.2 then st.m_SourceLandmarks.getD rc.1.val 0 ca.1 else 0
    | Sum.inr a => if rc.2 = a then 1 else 0

/-- Modelled from the spec (the body of `ComputeL` is in the `.txx`): the
saddle-point matrix `L = [K P; Pᵗ 0]`. -/
def ComputeL (G : Pt D → GMat D) (st : KernelTransform2 D) :
    Matrix (LIdx st.m_SourceLandmarks.length D) (LIdx st.m_SourceLandmarks.length D) ℚ :=
  Matrix.fromBlocks (ComputeK G st) (ComputeP st) (ComputeP st).transpose 0

/-- Modelled from the spec (the body of `ComputeY` is in the `.txx`): the
flattened displacements `q_i - p_i`, padded with `D·D + D` zero rows. -/
def ComputeY (st : KernelTransform2 D) : LIdx st.m_SourceLandmarks.length D → ℚ :=
  fun r =>
    match r with
    | Sum.inl ic =>
      (st.m_TargetLandmarks.getD ic.1.val 0 - st.m_SourceLandmarks.getD ic.1.val 0) ic.2
    | Sum.inr _ => 0

/-- Exact matrix inverse over ℚ through the adjugate; this stands for the
`vnl` inversion used by `ComputeLInverse`.  The SVD small-singular-value
truncation of the floating-point implementation is a purely numerical device;
over exact rationals a singular L simply yields the zero matrix (det = 0). -/
def matInv {n : Type} [DecidableEq n] [Fintype n] (M : Matrix n n ℚ) : Matrix n n ℚ :=
  M.det⁻¹ • M.adjugate

/-- Modelled from the spec (the bodies of `ComputeWMatrix`, `ReorganizeW` are
in the `.txx`): with no landmarks the solve is skipped entirely and the
transform degenerates to the identity (`A = I`, `b = 0`, no deformable
coefficients); otherwise `W = L⁻¹ · Y` is solved and reorganized into the
deformable rows (one coefficient vector per landmark), the transposed linear
part A and the translation b. -/
def ComputeWMatrix (G : Pt D → GMat D) (st : KernelTransform2 D) : KernelTransform2 D :=
  if st.m_SourceLandmarks.length = 0 then
    { st with
      m_AMatrix := 1
      m_BVector := 0
      m_DMatrix := []
      m_LMatrixComputed := true
      m_LInverseComputed := true
      m_WMatrixComputed := true }
  else
    let W : LIdx st.m_SourceLandmarks.length D → ℚ :=
      (matInv (ComputeL G st)).mulVec (ComputeY st)
    { st with
      m_AMatrix := Matrix.of fun r c => W (Sum.inr (Sum.inl (c, r)))
      m_BVector := fun a => W (Sum.inr (Sum.inr a))
      m_DMatrix := List.ofFn fun i : Fin st.m_SourceLandmarks.length =>
        fun a => W (Sum.inl (i, a))
      m_LMatrixComputed := true
      m_LInverseComputed := true
      m_WMatrixComputed := true }

/-- Modelled from the spec: the source/target landmark count equality is a
configuration precondition checked before any matrix assembly; a mismatch is
a hard failure surfaced to the caller, never silently tolerated. -/
def ComputeWMatrixChecked (G : Pt D → GMat D) (st : KernelTransform2 D) :
    Except String (KernelTransform2 D) :=
  if st.m_SourceLandmarks.length = st.m_TargetLandmarks.length then
    Except.ok (ComputeWMatrix G st)
  else
    Except.error "ComputeWMatrix: source and target landmark counts differ"

/-- Modelled from the spec (the body of `SetIdentity` is in the `.txx`):
clears both landmark sets to empty, forcing all subsequent evaluation into
the N = 0 identity special case, and invalidates the cached matrices. -/
def SetIdentity (st : KernelTransform2 D) : KernelTransform2 D :=
  { st with
    m_SourceLandmarks := []
    m_TargetLandmarks := []
    m_DMatrix := []
    m_LMatrixComputed := false
    m_LInverseComputed := false
    m_WMatrixComputed := false }

/-- Modelled from the spec (the body of `ComputeDeformationContribution` is in
the `.txx`): accumulate, over all landmarks, the kernel response to the query
point's displacement from the landmark, weighted by that landmark's spline
coefficient vector. -/
def ComputeDeformationContribution (G : Pt D → GMat D) (st : KernelTransform2 D)
    (inputPoint : Pt D) : Pt D :=
  (st.m_SourceLandmarks.zip st.m_DMatrix).foldl
    (fun result pc => result + Matrix.vecMul pc.2 (G (inputPoint - pc.1))) 0

/-- Modelled from the spec (the body of `TransformPoint` is in the `.txx`):
`result = A·x + b + deformation contribution`. -/
def TransformPoint (G : Pt D → GMat D) (st : KernelTransform2 D)
    (thisPoint : Pt D) : Pt D :=
  st.m_AMatrix.mulVec thisPoint + st.m_BVector
    + ComputeDeformationContribution G st thisPoint

/-- Modelled from the spec (the body of `GetJacobian` is in the `.txx`): the
D × (N·D) Jacobian of the output with respect to the landmark parameters,
represented by its N column blocks; block i, occupying columns
i·D … i·D + D - 1, is the kernel response `G (x - source[i])`. -/
def GetJacobian (G : Pt D → GMat D) (st : KernelTransform2 D) (x : Pt D) :
    List (GMat D) :=
  st.m_SourceLandmarks.map fun p => G (x - p)

/-- `m_NonZeroJacobianIndices` (header, lines 412-413): "Precomputed nonzero
Jacobian indices (simply all params)". -/
def NonZeroJacobianIndices (st : KernelTransform2 D) : List ℕ :=
  List.range (GetNumberOfParameters st)

/-- Modelled from the spec: reinterpret a flat landmark-major / axis-minor
coordinate list as `n` points of dimension `D` (each point takes the next `D`
entries). -/
def toLandmarkPoints (D : ℕ) : ℕ → List ℚ → List (Pt D)
  | 0, _ => []
  | n + 1, v => (fun a : Fin D => v.getD a.val 0) :: toLandmarkPoints D n (v.drop D)

/-- Modelled from the spec (the body of `SetParameters` is in the `.txx`): the
flat vector's length must equal N·D — a mismatch is a hard configuration
failure surfaced to the caller before any assembly, with the input never
truncated or padded; on success the vector is reinterpreted landmark-major /
axis-minor into the source landmark store and the derived matrices are
invalidated. -/
def SetParameters (st : KernelTransform2 D) (v : List ℚ) :
    Except String (KernelTransform2 D) :=
  if v.length = st.m_SourceLandmarks.length * D then
    Except.ok
      { st with
        m_SourceLandmarks := toLandmarkPoints D st.m_SourceLandmarks.length v
        m_LMatrixComputed := false
        m_LInverseComputed := false
        m_WMatrixComputed := false }
  else
    Except.error "SetParameters: parameter vector length does not equal N times D"

/-- Modelled from the spec (the body of `GetParameters` is in the `.txx`):
flattens the current source landmarks, landmark-major then axis-minor. -/
def GetParameters (st : KernelTransform2 D) : List ℚ :=
  st.m_SourceLandmarks.flatMap fun p => List.ofFn p

/-- A concrete two-dimensional transform state with no landmarks, used as a
test fixture by the concrete instantiations below. -/
def emptyState2 : KernelTransform2 2 :=
  { m_SourceLandmarks := []
    m_TargetLandmarks := []
    m_Stiffness := 0
    m_AMatrix := 1
    m_BVector := 0
    m_DMatrix := []
    m_WMatrixComputed := false
    m_LMatrixComputed := false
    m_LInverseComputed := false }

/-- A concrete two-dimensional transform state with one landmark pair and one
deformable coefficient vector, used as a test fixture. -/
def oneLandmarkState2 : KernelTransform2 2 :=
  { emptyState2 with
    m_SourceLandmarks := [fun _ => 1]
    m_TargetLandmarks := [fun _ => 2]
    m_DMatrix := [fun _ => 3] }

/-- Claim C6: for every landmark configuration, the number of free parameters
reported by the transform equals N·D, the number of source landmarks times
the fixed spatial dimension. -/
theorem getNumberOfParameters_eq_numLandmarks_mul_dim
    (D : ℕ) (st : KernelTransform2 D) :
    GetNumberOfParameters st = st.m_SourceLandmarks.length * D :=
  rfl

/-- Claim C4: `SetStiffness s` stores exactly `max s 0` — a negative input is
silently clamped to 0 — so a subsequent `GetStiffness` is non-negative. -/
theorem setStiffness_stores_max_s_zero (D : ℕ) (st : KernelTransform2 D) (s : ℚ) :
    (SetStiffness st s).m_Stiffness = max s 0 ∧
      0 ≤ GetStiffness (SetStiffness st s) := by
  have hmax : (if s > 0 then s else 0) = max s 0 := by
    rcases le_or_lt s 0 with h | h
    · rw [if_neg (not_lt.mpr h), max_eq_right h]
    · rw [if_pos h, max_eq_left h.le]
  refine ⟨hmax, ?_⟩
  show (if s > 0 then s else 0) ≥ 0
  rw [hmax]
  exact le_max_right s 0

/-- Claim C5 counterexample: starting from a state whose L-matrix validity
flag is `true`, a call to `SetStiffness` alone leaves that landmark-dependent
assembly flag `false` — the L matrix does need recomputation afterwards,
contrary to the claim. -/
theorem setStiffness_invalidates_L_counterexample :
    ({ emptyState2 with m_LMatrixComputed := true } : KernelTransform2 2).m_LMatrixComputed
        = true ∧
      (SetStiffness { emptyState2 with m_LMatrixComputed := true } (1/2)).m_LMatrixComputed
        = false :=
  ⟨rfl, rfl⟩

/-- Claim C5 (amended): the three validity flags for L, L-inverse and W are
tracked as three separate booleans, but `SetStiffness` alone invalidates all
three of them — including the landmark-dependent L flag — while leaving the
landmark stores themselves untouched (the stored points are not re-scanned or
modified). -/
theorem setStiffness_invalidates_flags_keeps_landmarks (D : ℕ)
    (st : KernelTransform2 D) (s : ℚ) :
    (SetStiffness st s).m_LMatrixComputed = false ∧
    (SetStiffness st s).m_LInverseComputed = false ∧
    (SetStiffness st s).m_WMatrixComputed = false ∧
    (SetStiffness st s).m_SourceLandmarks = st.m_SourceLandmarks ∧
    (SetStiffness st s).m_TargetLandmarks = st.m_TargetLandmarks :=
  ⟨rfl, rfl, rfl, rfl, rfl⟩

/-- Claim C10: on the base kernel transform, `SetAlpha` changes no observable
state — any sequence of calls leaves the state fixed — and `GetAlpha` returns
the constant `-1.0` before and after. -/
theorem setAlpha_noop_getAlpha_negOne (D : ℕ) (st : KernelTransform2 D)
    (a : ℚ) (as : List ℚ) :
    SetAlpha st a = st ∧
    as.foldl SetAlpha st = st ∧
    GetAlpha st = -1 ∧
    GetAlpha (as.foldl SetAlpha st) = -1 := by
  have hfold : ∀ (l : List ℚ) (s : KernelTransform2 D), l.foldl SetAlpha s = s := by
    intro l
    induction l with
    | nil => intro s; rfl
    | cons x xs ih => intro s; exact ih s
  exact ⟨rfl, hfold as st, rfl, by rw [hfold as st]; rfl⟩

/-- Claim C8: for every landmark index, the default reflexive kernel response
equals `stiffness • I`, the D × D identity scaled by the current stiffness. -/
theorem computeReflexiveG_eq_stiffness_smul_id (D : ℕ)
    (st : KernelTransform2 D) (i : ℕ) :
    ComputeReflexiveG st i = st.m_Stiffness • (1 : GMat D) := by
  ext r c
  by_cases h : r = c <;>
    simp [ComputeReflexiveG, Matrix.diagonal, Matrix.one_apply, h]

/-- Folding pointwise addition of vector contributions over a list equals the
initial accumulator plus the sum of the mapped list. -/
theorem foldl_add_eq_add_sum {α : Type} {D : ℕ} (f : α → Pt D) :
    ∀ (l : List α) (init : Pt D),
      l.foldl (fun acc a => acc + f a) init = init + (l.map f).sum := by
  intro l
  induction l with
  | nil => intro init; simp
  | cons a l ih =>
      intro init
      simp only [List.foldl_cons, List.map_cons, List.sum_cons, ih, add_assoc]

/-- The summed per-landmark contributions, written as a map over the zipped
landmark/coefficient lists, equal an index-based sum over the landmark
range. -/
theorem zip_vecMul_sum_eq_range_sum {D : ℕ} (G : Pt D → GMat D) (x : Pt D) :
    ∀ (src dm : List (Pt D)), dm.length = src.length →
      ((src.zip dm).map fun pc => Matrix.vecMul pc.2 (G (x - pc.1))).sum =
        ∑ i ∈ Finset.range src.length,
          Matrix.vecMul (dm.getD i 0) (G (x - src.getD i 0)) := by
  intro src
  induction src with
  | nil => intro dm h; simp
  | cons p src ih =>
      intro dm h
      match dm with
      | [] => simp at h
      | d :: dm =>
        simp only [List.zip_cons_cons, List.map_cons, List.sum_cons, List.length_cons]
        rw [Finset.sum_range_succ']
        simp only [List.getD_cons_succ, List.getD_cons_zero]
        rw [ih dm (by simpa using h)]
        exact add_comm _ _

/-- Claim C1: for every query point, `TransformPoint` equals the affine part
`A·x + b` plus the sum, over all landmarks, of the landmark's deformable
coefficient vector applied to the kernel response `G (x - source[i])`. -/
theorem transformPoint_eq_affine_add_kernel_sum (D : ℕ) (G : Pt D → GMat D)
    (st : KernelTransform2 D) (x : Pt D)
    (h : st.m_DMatrix.length = st.m_SourceLandmarks.length) :
    TransformPoint G st x =
      st.m_AMatrix.mulVec x + st.m_BVector +
        ∑ i ∈ Finset.range st.m_SourceLandmarks.length,
          Matrix.vecMul (st.m_DMatrix.getD i 0)
            (G (x - st.m_SourceLandmarks.getD i 0)) := by
  unfold TransformPoint ComputeDeformationContribution
  rw [foldl_add_eq_add_sum (fun pc : Pt D × Pt D => Matrix.vecMul pc.2 (G (x - pc.1)))
      (st.m_SourceLandmarks.zip st.m_DMatrix) 0,
    zero_add, zip_vecMul_sum_eq_range_sum G x st.m_SourceLandmarks st.m_DMatrix h]

/-- Claim C1, instantiated: the decomposition evaluated on a concrete
one-landmark state in dimension two. -/
theorem transformPoint_eq_affine_add_kernel_sum_witness :
    TransformPoint (fun _ => (1 : GMat 2)) oneLandmarkState2 (fun _ => (4 : ℚ)) =
      Matrix.mulVec (KernelTransform2.m_AMatrix oneLandmarkState2) (fun _ => (4 : ℚ)) +
        KernelTransform2.m_BVector oneLandmarkState2 +
        ∑ i ∈ Finset.range (KernelTransform2.m_SourceLandmarks oneLandmarkState2).length,
          Matrix.vecMul ((KernelTransform2.m_DMatrix oneLandmarkState2).getD i 0)
            ((fun _ => (1 : GMat 2))
              ((fun _ => (4 : ℚ)) -
                (KernelTransform2.m_SourceLandmarks oneLandmarkState2).getD i 0)) :=
  transformPoint_eq_affine_add_kernel_sum 2 (fun _ => 1) oneLandmarkState2
    (fun _ => (4 : ℚ)) rfl

/-- Claim C2: with an empty landmark set the solve is skipped —
`ComputeWMatrix` takes the degenerate branch and yields `A = I`, `b = 0` and
no deformable coefficients — `TransformPoint` is then the identity map for
every query point, and the checked entry point accepts the empty
configuration rather than rejecting it as an error. -/
theorem computeWMatrix_no_landmarks_identity (D : ℕ) (G : Pt D → GMat D)
    (st : KernelTransform2 D) (x : Pt D)
    (hs : st.m_SourceLandmarks = []) (ht : st.m_TargetLandmarks = []) :
    (ComputeWMatrix G st).m_AMatrix = 1 ∧
    (ComputeWMatrix G st).m_BVector = 0 ∧
    (ComputeWMatrix G st).m_DMatrix = [] ∧
    TransformPoint G (ComputeWMatrix G st) x = x ∧
    ComputeWMatrixChecked G st = Except.ok (ComputeWMatrix G st) := by
  have hlen : st.m_SourceLandmarks.length = 0 := by rw [hs]; rfl
  have hW : ComputeWMatrix G st =
      { st with
        m_AMatrix := 1
        m_BVector := 0
        m_DMatrix := []
        m_LMatrixComputed := true
        m_LInverseComputed := true
        m_WMatrixComputed := true } := by
    unfold ComputeWMatrix
    rw [if_pos hlen]
  refine ⟨by rw [hW], by rw [hW], by rw [hW], ?_, ?_⟩
  · rw [hW]
    show Matrix.mulVec 1 x + 0 + ComputeDeformationContribution G _ x = x
    simp [ComputeDeformationContribution, hs, Matrix.one_mulVec]
  · unfold ComputeWMatrixChecked
    rw [if_pos (by rw [hs, ht])]

/-- Claim C2, instantiated: the identity degeneration evaluated on the
concrete empty two-dimensional state. -/
theorem computeWMatrix_no_landmarks_identity_witness :
    (ComputeWMatrix (fun _ => (1 : GMat 2)) emptyState2).m_AMatrix = 1 ∧
    (ComputeWMatrix (fun _ => (1 : GMat 2)) emptyState2).m_BVector = 0 ∧
    (ComputeWMatrix (fun _ => (1 : GMat 2)) emptyState2).m_DMatrix = [] ∧
    TransformPoint (fun _ => (1 : GMat 2))
      (ComputeWMatrix (fun _ => (1 : GMat 2)) emptyState2) (fun _ => (5 : ℚ)) =
        (fun _ => (5 : ℚ)) ∧
    ComputeWMatrixChecked (fun _ => (1 : GMat 2)) emptyState2 =
      Except.ok (ComputeWMatrix (fun _ => (1 : GMat 2)) emptyState2) :=
  computeWMatrix_no_landmarks_identity 2 (fun _ => 1) emptyState2
    (fun _ => (5 : ℚ)) rfl rfl

/-- Reading the first `D` entries of a flat coordinate list as one point and
flattening it back gives the first `D` entries. -/
theorem ofFn_getD_eq_take (D : ℕ) (v : List ℚ) (h : D ≤ v.length) :
    List.ofFn (fun a : Fin D => v.getD a.val 0) = v.take D := by
  apply List.ext_getElem
  · simp [Nat.min_eq_left h]
  · intro i h1 h2
    simp only [List.getElem_ofFn, List.getElem_take]
    have hi : i < v.length := lt_of_lt_of_le (by simpa using h1) h
    rw [List.getD_eq_getElem v 0 hi]

/-- Flattening the landmark points read from a flat vector of length `n·D`
restores that vector. -/
theorem toLandmarkPoints_flatten (D : ℕ) :
    ∀ (n : ℕ) (v : List ℚ), v.length = n * D →
      (toLandmarkPoints D n v).flatMap (fun p => List.ofFn p) = v := by
  intro n
  induction n with
  | zero =>
      intro v hv
      have : v = [] := List.eq_nil_of_length_eq_zero (by simpa using hv)
      rw [this]
      rfl
  | succ n ih =>
      intro v hv
      have hD : D ≤ v.length := by
        rw [hv, Nat.succ_mul]
        exact Nat.le_add_left D (n * D)
      have hdrop : (v.drop D).length = n * D := by
        rw [List.length_drop, hv, Nat.succ_mul, Nat.add_sub_cancel]
      simp only [toLandmarkPoints, List.flatMap_cons]
      rw [ofFn_getD_eq_take D v hD, ih (v.drop D) hdrop, List.take_append_drop]

/-- Claim C3: for any flat parameter vector of length N·D, `SetParameters`
succeeds and a subsequent `GetParameters` returns exactly that vector. -/
theorem getParameters_setParameters_roundtrip (D : ℕ) (st : KernelTransform2 D)
    (v : List ℚ) (h : v.length = st.m_SourceLandmarks.length * D) :
    Except.map GetParameters (SetParameters st v) = Except.ok v := by
  unfold SetParameters
  rw [if_pos h]
  show Except.ok (GetParameters _) = Except.ok v
  have : GetParameters
      { st with
        m_SourceLandmarks := toLandmarkPoints D st.m_SourceLandmarks.length v
        m_LMatrixComputed := false
        m_LInverseComputed := false
        m_WMatrixComputed := false } =
      (toLandmarkPoints D st.m_SourceLandmarks.length v).flatMap fun p => List.ofFn p := rfl
  rw [this, toLandmarkPoints_flatten D st.m_SourceLandmarks.length v h]

/-- Claim C3, instantiated: the round trip evaluated on the concrete
one-landmark state with the flat vector `[1, 2]`. -/
theorem getParameters_setParameters_roundtrip_witness :
    Except.map GetParameters (SetParameters oneLandmarkState2 [1, 2]) =
      Except.ok [1, 2] :=
  getParameters_setParameters_roundtrip 2 oneLandmarkState2 [1, 2] rfl

/-- Claim C7: the Jacobian has one D × D column block per landmark, block i
being the kernel response `G (x - source[i])` (the same evaluation used by
`TransformPoint`), and the precomputed nonzero-Jacobian index list is exactly
all N·D parameter indices — every column is populated, the transform is
dense. -/
theorem getJacobian_blocks_and_dense_indices (D : ℕ) (G : Pt D → GMat D)
    (st : KernelTransform2 D) (x : Pt D) (i : ℕ)
    (h : i < st.m_SourceLandmarks.length) :
    (GetJacobian G st x).getD i 0 = G (x - st.m_SourceLandmarks.getD i 0) ∧
    (GetJacobian G st x).length = st.m_SourceLandmarks.length ∧
    NonZeroJacobianIndices st = List.range (GetNumberOfParameters st) ∧
    (NonZeroJacobianIndices st).length = GetNumberOfParameters st ∧
    (∀ j, j < GetNumberOfParameters st → j ∈ NonZeroJacobianIndices st) := by
  refine ⟨?_, by simp [GetJacobian], rfl, by simp [NonZeroJacobianIndices], ?_⟩
  · unfold GetJacobian
    rw [List.getD_eq_getElem _ 0 (by simpa using h), List.getD_eq_getElem _ 0 h]
    simp
  · intro j hj
    exact List.mem_range.mpr hj

/-- Claim C7, instantiated: the Jacobian block and the dense index list
evaluated on the concrete one-landmark state. -/
theorem getJacobian_blocks_and_dense_indices_witness :
    (GetJacobian (fun _ => (1 : GMat 2)) oneLandmarkState2 (fun _ => (4 : ℚ))).getD 0 0 =
      (fun _ => (1 : GMat 2))
        ((fun _ => (4 : ℚ)) - (KernelTransform2.m_SourceLandmarks oneLandmarkState2).getD 0 0) ∧
    (GetJacobian (fun _ => (1 : GMat 2)) oneLandmarkState2 (fun _ => (4 : ℚ))).length =
      (KernelTransform2.m_SourceLandmarks oneLandmarkState2).length ∧
    NonZeroJacobianIndices oneLandmarkState2 =
      List.range (GetNumberOfParameters oneLandmarkState2) ∧
    (NonZeroJacobianIndices oneLandmarkState2).length =
      GetNumberOfParameters oneLandmarkState2 ∧
    (∀ j, j < GetNumberOfParameters oneLandmarkState2 →
      j ∈ NonZeroJacobianIndices oneLandmarkState2) :=
  getJacobian_blocks_and_dense_indices 2 (fun _ => 1) oneLandmarkState2
    (fun _ => (4 : ℚ)) 0 (by decide)

/-- Claim C9: a parameter vector whose length differs from N·D makes
`SetParameters` fail hard with an error (nothing is truncated or padded, no
landmark store is written), and differing source/target landmark counts make
the checked assembly entry point fail hard before any assembly. -/
theorem configuration_mismatch_hard_failure (D : ℕ) (st : KernelTransform2 D)
    (v : List ℚ) (G : Pt D → GMat D) :
    (v.length ≠ st.m_SourceLandmarks.length * D →
      SetParameters st v =
        Except.error "SetParameters: parameter vector length does not equal N times D") ∧
    (st.m_SourceLandmarks.length ≠ st.m_TargetLandmarks.length →
      ComputeWMatrixChecked G st =
        Except.error "ComputeWMatrix: source and target landmark counts differ") := by
  constructor
  · intro hv
    unfold SetParameters
    rw [if_neg hv]
  · intro hc
    unfold ComputeWMatrixChecked
    rw [if_neg hc]

/-- Claim C9, instantiated: a length-3 vector against N·D = 2, and a 0/1
landmark count mismatch, both rejected on concrete states. -/
theorem configuration_mismatch_hard_failure_witness :
    SetParameters oneLandmarkState2 [1, 2, 3] =
      Except.error "SetParameters: parameter vector length does not equal N times D" ∧
    ComputeWMatrixChecked (fun _ => (1 : GMat 2))
        { emptyState2 with m_TargetLandmarks := [fun _ => 0] } =
      Except.error "ComputeWMatrix: source and target landmark counts differ" :=
  ⟨(configuration_mismatch_hard_failure 2 oneLandmarkState2 [1, 2, 3] (fun _ => 1)).1
      (by decide),
   (configuration_mismatch_hard_failure 2
      { emptyState2 with m_TargetLandmarks := [fun _ => 0] } [] (fun _ => 1)).2
      (by decide)⟩

end itk
